import Mathlib

/-!
Verification of the wescarr/sentry fragments.

Shallow embedding of four source files:
* `src/sentry/rules/filters/issue_type.py` (`IssueTypeFilter.passes`)
* `src/sentry/integrations/msteams/card_builder/issues.py`
  (`MSTeamsIssueMessageBuilder` action blocks)
* `src/sentry/api/endpoints/organization_issues_hotspots.py`
  (`OrganizationIssuesHotspotsEndpoint.get`)
* `src/sentry/middleware/integrations/parsers/github.py`
  (`GithubRequestParser.get_integration`)
-/

namespace IssueTypeF

/-- A group as seen by `IssueTypeFilter.passes`.  `issue_type` is the value of
the group's `GroupType`; the source guards `event.group.issue_type` for
truthiness, so the attribute may be `None` (modelled as `Option`). -/
structure TGroup where
  issue_type : Option Int
deriving DecidableEq

/-- The slice of the event model used by `IssueTypeFilter.passes`:
`event.group` (single issue, may be unset) and `event.groups`
(merged-issue set, may be unset). -/
structure TEvent where
  group : Option TGroup
  groups : Option (List TGroup)
deriving DecidableEq

/-- Value of a run of decimal digits, `none` if empty or any char is not a
digit (mirrors Python `int(...)` raising `ValueError`). -/
def digitsVal (cs : List Char) : Option Nat :=
  if cs.isEmpty then none
  else cs.foldl
    (fun acc c =>
      acc.bind (fun n => if c.isDigit then some (10 * n + (c.toNat - 48)) else none))
    (some 0)

def isSpaceChar (c : Char) : Bool :=
  c == ' ' || c == '\t' || c == '\n' || c == '\r'

/-- Strip leading and trailing whitespace from a char list. -/
def stripSpaces (cs : List Char) : List Char :=
  ((cs.dropWhile isSpaceChar).reverse.dropWhile isSpaceChar).reverse

/-- Python `int(s)` on a string: optional surrounding whitespace, optional
sign, then decimal digits; `none` models the `ValueError` on anything else. -/
def parsePyInt (s : String) : Option Int :=
  match stripSpaces s.toList with
  | [] => none
  | '-' :: rest => (digitsVal rest).map (fun n => -(n : Int))
  | '+' :: rest => (digitsVal rest).map (fun n => (n : Int))
  | cs => (digitsVal cs).map (fun n => (n : Int))

/-- Modelled from the spec: `GroupType(n)` from `sentry/types/issues.py`,
which is not under `src/`.  The spec only requires that the integer be "a
known `GroupType` enum member", so the member values are a parameter
`groupTypeValues`; the constructor raises `ValueError` (here `none`) for a
non-member. -/
def groupTypeOf (groupTypeValues : List Int) (n : Int) : Option Int :=
  if n ∈ groupTypeValues then some n else none

/-- The `try` block of `IssueTypeFilter.passes`:
`GroupType(int(self.get_option("value")))`.  `none` stands for the caught
`TypeError` (option missing) or `ValueError` (not an int, or not a member). -/
def parseOptionValue (groupTypeValues : List Int) (option_value : Option String) :
    Option Int :=
  match option_value with
  | none => none
  | some s =>
    match parsePyInt s with
    | none => none
    | some n => groupTypeOf groupTypeValues n

/-- The `for group in event.groups` loop guarded by `if event.groups:`:
true iff some listed group's `issue_type` equals the parsed value (comparing
a `GroupType` with `None` in Python is `False`). -/
def groupsPass (value : Int) (groups : Option (List TGroup)) : Bool :=
  match groups with
  | none => false
  | some gs => gs.any (fun group => some value == group.issue_type)

/-- `IssueTypeFilter.passes` from
`src/sentry/rules/filters/issue_type.py`, lines 26-40. -/
def passes (groupTypeValues : List Int) (option_value : Option String)
    (event : TEvent) : Bool :=
  match parseOptionValue groupTypeValues option_value with
  | none => false
  | some value =>
    match event.group with
    | some group =>
      match group.issue_type with
      | some it => value == it
      | none => groupsPass value event.groups
    | none => groupsPass value event.groups

/-- The claim C1's predicate, written from the spec's words: the value parses
as a known `GroupType` and it equals the issue type of the event's group or,
for a merged event (group unset, groups set), of at least one group in
`event.groups`. -/
def claimedPasses (groupTypeValues : List Int) (option_value : Option String)
    (event : TEvent) : Bool :=
  match parseOptionValue groupTypeValues option_value with
  | none => false
  | some value =>
    (match event.group with
     | some group => some value == group.issue_type
     | none => false) ||
    (event.group.isNone &&
     (match event.groups with
      | none => false
      | some gs => gs.any (fun group => some value == group.issue_type)))

/-- The amended claim C1, as a predicate: as C1, except that when the event's
group is set but its issue type is unset the filter falls through to the
merged-group scan. -/
def amendedPasses (groupTypeValues : List Int) (option_value : Option String)
    (event : TEvent) : Bool :=
  match parseOptionValue groupTypeValues option_value with
  | none => false
  | some value =>
    (match event.group with
     | some group => some value == group.issue_type
     | none => false) ||
    ((match event.group with
      | some group => group.issue_type.isNone
      | none => true) &&
     (match event.groups with
      | none => false
      | some gs => gs.any (fun group => some value == group.issue_type)))

/- Concrete inputs used by counterexamples and witnesses. -/

def gType1 : TGroup := { issue_type := some 1 }

def gTypeNone : TGroup := { issue_type := none }

/-- Event whose group is set but has no issue type, while a merged group in
`event.groups` does match: the filter falls through to the merged scan. -/
def ceFallthrough : TEvent := { group := some gTypeNone, groups := some [gType1] }

def ceFallthroughEmpty : TEvent := { group := some gTypeNone, groups := some [] }

def wMergedEvent : TEvent := { group := none, groups := some [gTypeNone, gType1] }

def wSingleEvent : TEvent := { group := some gType1, groups := none }

def wNoGroupEvent : TEvent := { group := none, groups := none }

end IssueTypeF

namespace IssueTypeF

/-- Claim C1 (counterexample): with `GroupType` member 1, option value "1",
and an event whose group is set but has `issue_type` unset while
`event.groups` holds a matching group, `passes` returns true although the
claim's predicate (match the set group, or any merged group when the group is
unset) is false: the claimed iff fails. -/
theorem C1_passes_counterexample :
    passes [1] (some "1") ceFallthrough = true ∧
    claimedPasses [1] (some "1") ceFallthrough = false := by
  exact ⟨rfl, rfl⟩

/-- Claim C1 (amended): `passes` returns true iff the option value parses as
an integer that is a known `GroupType` member and either the event's group is
set with a set issue type equal to that value, or the event's group is unset
or has an unset issue type and at least one group in `event.groups` has that
issue type; in every other case it returns false. -/
theorem C1_passes_amended (gtv : List Int) (ov : Option String) (e : TEvent) :
    passes gtv ov e = amendedPasses gtv ov e := by
  unfold passes amendedPasses groupsPass
  cases parseOptionValue gtv ov with
  | none => rfl
  | some v =>
    cases hg : e.group with
    | none => simp
    | some g =>
      cases hit : g.issue_type with
      | none => simp [hit]
      | some it => simp [hit]

/-- Claim C2: if the stored option `value` is missing or does not parse as an
integer naming a `GroupType` member, `passes` returns false (the source
catches `TypeError`/`ValueError` and returns `False`; the embedding is total,
so no exception escapes). -/
theorem C2_malformed_option_false (gtv : List Int) (ov : Option String)
    (e : TEvent) (h : parseOptionValue gtv ov = none) :
    passes gtv ov e = false := by
  unfold passes
  rw [h]

/-- Claim C2 witness: the malformed option "not-an-int" and the missing
option both fail to parse, and `passes` returns false on a concrete event. -/
theorem C2_malformed_option_false_witness :
    parseOptionValue [1] (some "not-an-int") = none ∧
    passes [1] (some "not-an-int") wSingleEvent = false ∧
    passes [1] none wSingleEvent = false :=
  ⟨rfl, C2_malformed_option_false [1] (some "not-an-int") wSingleEvent rfl,
    C2_malformed_option_false [1] none wSingleEvent rfl⟩

/-- Claim C3: when `event.group` is unset and `event.groups` is a non-empty
set, for a valid option value `passes` returns true iff at least one group in
`event.groups` has an issue type equal to the option's `GroupType`. -/
theorem C3_merged_fanout (gtv : List Int) (ov : Option String) (e : TEvent)
    (gs : List TGroup) (n : Int) (hg : e.group = none)
    (hgs : e.groups = some gs) (hne : gs ≠ [])
    (hv : parseOptionValue gtv ov = some n) :
    (passes gtv ov e = true ↔ ∃ g ∈ gs, g.issue_type = some n) := by
  unfold passes groupsPass
  rw [hv, hg, hgs]
  simp only [List.any_eq_true, beq_iff_eq]
  exact ⟨fun ⟨g, hm, hh⟩ => ⟨g, hm, hh.symm⟩, fun ⟨g, hm, hh⟩ => ⟨g, hm, hh.symm⟩⟩

/-- Claim C3 witness: on a concrete merged event whose second group matches,
`passes` evaluates to true, via the fan-out theorem. -/
theorem C3_merged_fanout_witness :
    passes [1] (some "1") wMergedEvent = true :=
  (C3_merged_fanout [1] (some "1") wMergedEvent [gTypeNone, gType1] 1
    rfl rfl (by decide) rfl).mpr ⟨gType1, by simp [wMergedEvent], rfl⟩

/-- Claim C4 (counterexample): two events with the same set group (whose
issue type is unset) but different `event.groups` contents get different
results from `passes`, so with `event.group` set the returned value can
depend on `event.groups`. -/
theorem C4_group_alone_counterexample :
    ceFallthrough.group = ceFallthroughEmpty.group ∧
    ceFallthrough.group.isSome = true ∧
    passes [1] (some "1") ceFallthrough = true ∧
    passes [1] (some "1") ceFallthroughEmpty = false := by
  exact ⟨rfl, rfl, rfl, rfl⟩

/-- Claim C4 (amended): whenever `event.group` is set and its issue type is
set, `passes` decides the result against that single group alone and the
returned value does not depend on `event.groups`; the merged set is consulted
only when the group is unset or its issue type is unset. -/
theorem C4_group_alone_amended (gtv : List Int) (ov : Option String)
    (e e' : TEvent) (g : TGroup) (it : Int) (h : e.group = some g)
    (h' : e'.group = some g) (hit : g.issue_type = some it) :
    passes gtv ov e = passes gtv ov e' := by
  unfold passes
  cases parseOptionValue gtv ov with
  | none => rfl
  | some v => simp [h, h', hit]

/-- Claim C4 witness: two concrete events sharing a group with a set issue
type but with different `groups` contents evaluate equally. -/
theorem C4_group_alone_witness :
    passes [1] (some "1") { group := some gType1, groups := some [gTypeNone] } =
    passes [1] (some "1") { group := some gType1, groups := none } :=
  C4_group_alone_amended [1] (some "1")
    { group := some gType1, groups := some [gTypeNone] }
    { group := some gType1, groups := none } gType1 1 rfl rfl rfl

/-- Claim C5: with no group at all (`event.group` unset and `event.groups`
empty or unset) `passes` returns false; the embedding is total, so no error
is raised. -/
theorem C5_no_group_false (gtv : List Int) (ov : Option String) (e : TEvent)
    (hg : e.group = none) (hgs : e.groups = none ∨ e.groups = some []) :
    passes gtv ov e = false := by
  unfold passes groupsPass
  cases parseOptionValue gtv ov with
  | none => rfl
  | some v =>
    rw [hg]
    rcases hgs with h | h
    · rw [h]
    · rw [h]; rfl

/-- Claim C5 witness: both the unset-`groups` and the empty-`groups` variants
evaluate to false on concrete events. -/
theorem C5_no_group_false_witness :
    passes [1] (some "1") wNoGroupEvent = false ∧
    passes [1] (some "1") { group := none, groups := some [] } = false :=
  ⟨C5_no_group_false [1] (some "1") wNoGroupEvent rfl (Or.inl rfl),
    C5_no_group_false [1] (some "1") { group := none, groups := some [] } rfl
      (Or.inr rfl)⟩

end IssueTypeF

namespace MSTeams

/-- Modelled from the spec: `ActionType` from
`msteams/card_builder/block.py`, which is not under `src/` — the Adaptive
Card action kinds used by `create_action_block`. -/
inductive ActionType where
  | SUBMIT
  | SHOW_CARD
  | OPEN_URL
deriving DecidableEq

/-- Modelled from the spec: `ACTION_TYPE` from `msteams/utils.py`, which is
not under `src/` — the Sentry-side action payload kinds (resolve / ignore /
assign and their reverses). -/
inductive ACTION_TYPE where
  | RESOLVE
  | IGNORE
  | ASSIGN
  | UNRESOLVE
  | UNASSIGN
deriving DecidableEq

/-- `GroupStatus` from `sentry.models`: the group states the card builder
branches on, plus a representative further state. -/
inductive GroupStatus where
  | UNRESOLVED
  | RESOLVED
  | IGNORED
  | PENDING_DELETION
deriving DecidableEq

/-- Modelled from the spec: the UI labels and input identifiers from
`msteams/card_builder/utils.py` (`IssueConstants`), which is not under
`src/`.  Only which constant is used where is claimed, not the exact text. -/
def IssueConstants.IGNORE : String := "Ignore"

def IssueConstants.STOP_IGNORING : String := "Stop Ignoring"

def IssueConstants.RESOLVE : String := "Resolve"

def IssueConstants.UNRESOLVE : String := "Unresolve"

def IssueConstants.ASSIGN : String := "Assign"

def IssueConstants.UNASSIGN : String := "Unassign"

def IssueConstants.ME : String := "ME"

def IssueConstants.IGNORE_INPUT_ID : String := "ignoreInput"

def IssueConstants.RESOLVE_INPUT_ID : String := "resolveInput"

def IssueConstants.ASSIGN_INPUT_ID : String := "assignInput"

def IssueConstants.IGNORE_INPUT_CHOICES : List (String × String) :=
  [("Ignore indefinitely", "-1")]

def IssueConstants.RESOLVE_INPUT_CHOICES : List (String × String) :=
  [("Immediately", "resolved")]

/-- A project team as consumed by `get_teams_choices`: its slug (used for
ordering) and the option text/value produced by `format_actor_options`. -/
structure Team where
  slug : String
  optionText : String
  optionValue : String
deriving DecidableEq

structure Assignee where
  name : String
deriving DecidableEq

/-- The slice of `Group` used by the action builders: `id` (read through
`event.group`), the assignee (`get_assignee`) and the project's teams. -/
structure MGroup where
  id : Nat
  assignee : Option Assignee
  teams : List Team
deriving DecidableEq

/-- `Group.get_assignee()`: returns the assignee or `None`. -/
def MGroup.get_assignee (g : MGroup) : Option Assignee :=
  g.assignee

/-- The slice of `Event` used by the card builder: `event_id` and `group`
(read unconditionally by `generate_action_payload`). -/
structure MEvent where
  event_id : String
  group : Option MGroup
deriving DecidableEq

structure Rule where
  id : Nat
deriving DecidableEq

structure Integration where
  id : Nat
deriving DecidableEq

/-- The action payload nested under `"payload"` by
`generate_action_payload`. -/
structure Payload where
  actionType : ACTION_TYPE
  groupId : Nat
  eventId : String
  rules : List Nat
  integrationId : Nat
deriving DecidableEq

/-- The observable content of the card built by `build_input_choice_card`:
bold title, an input choice set (`input_id`, `choices`, `default_choice`) and
one SUBMIT action carrying `data`. -/
structure InputChoiceCard where
  title : String
  inputId : String
  choices : List (String × String)
  defaultChoice : Option String
  submitData : Payload
deriving DecidableEq

/-- An Adaptive Card action as returned by `create_action_block`
(`block.py`, not under `src/`): its type, title, and the `data` (SUBMIT) or
`card` (SHOW_CARD) parameter selected by the action type. -/
structure Action where
  type : ActionType
  title : String
  data : Option Payload
  card : Option InputChoiceCard
deriving DecidableEq

/-- Modelled from the spec: `create_action_block(ActionType.SUBMIT, title,
data=data)` from `block.py`, which is not under `src/`. -/
def create_action_block_submit (title : String) (data : Payload) : Action :=
  { type := ActionType.SUBMIT, title := title, data := some data, card := none }

/-- Modelled from the spec: `create_action_block(ActionType.SHOW_CARD,
title, card=card)` from `block.py`, which is not under `src/`. -/
def create_action_block_show_card (title : String) (card : InputChoiceCard) :
    Action :=
  { type := ActionType.SHOW_CARD, title := title, data := none, card := some card }

/-- `build_input_choice_card` from
`src/sentry/integrations/msteams/card_builder/issues.py`: a card with the
title, an input choice set and a SUBMIT action carrying `data`. -/
def build_input_choice_card (title : String) (data : Payload) (input_id : String)
    (choices : List (String × String)) (default_choice : Option String) :
    InputChoiceCard :=
  { title := title, inputId := input_id, choices := choices,
    defaultChoice := default_choice, submitData := data }

/-- The state of `MSTeamsIssueMessageBuilder` (its `__init__` fields). -/
structure MSTeamsIssueMessageBuilder where
  group : MGroup
  event : MEvent
  rules : List Rule
  integration : Integration
deriving DecidableEq

/-- The dict built inside `generate_action_payload` once `event.group` is
resolved to `g`. -/
def MSTeamsIssueMessageBuilder.payloadFor (self : MSTeamsIssueMessageBuilder)
    (action_type : ACTION_TYPE) (g : MGroup) : Payload :=
  { actionType := action_type, groupId := g.id, eventId := self.event.event_id,
    rules := self.rules.map (fun r => r.id),
    integrationId := self.integration.id }

/-- `MSTeamsIssueMessageBuilder.generate_action_payload`: reads
`self.event.group.id` unconditionally, so an unset `event.group` fails
(Python `AttributeError`, modelled as `none`). -/
def MSTeamsIssueMessageBuilder.generate_action_payload
    (self : MSTeamsIssueMessageBuilder) (action_type : ACTION_TYPE) :
    Option Payload :=
  match self.event.group with
  | none => none
  | some g => some (self.payloadFor action_type g)

/-- `order_by("slug")` on the project's teams: insertion of one team into a
slug-sorted list. -/
def insertBySlug (t : Team) : List Team → List Team
  | [] => [t]
  | u :: us => if t.slug ≤ u.slug then t :: u :: us else u :: insertBySlug t us

def order_by_slug (ts : List Team) : List Team :=
  ts.foldr insertBySlug []

/-- `format_actor_options` over teams (from `sentry.integrations.notifications`,
options are `(text, value)` pairs). -/
def format_actor_options (teams : List Team) : List (String × String) :=
  teams.map (fun t => (t.optionText, t.optionValue))

/-- `MSTeamsIssueMessageBuilder.get_teams_choices`: `("Me", ME)` followed by
the project's teams ordered by slug. -/
def MSTeamsIssueMessageBuilder.get_teams_choices
    (self : MSTeamsIssueMessageBuilder) : List (String × String) :=
  ("Me", IssueConstants.ME) :: format_actor_options (order_by_slug self.group.teams)

/-- `MSTeamsIssueMessageBuilder.create_issue_action_block`: on `condition`
a SUBMIT action for the reverse action, otherwise a SHOW_CARD action whose
embedded card is built from the forward action's payload and the input
choices.  `none` propagates the failure of `generate_action_payload`. -/
def MSTeamsIssueMessageBuilder.create_issue_action_block
    (self : MSTeamsIssueMessageBuilder) (condition : Bool)
    (action : ACTION_TYPE) (action_title : String)
    (reverse_action : ACTION_TYPE) (reverse_action_title : String)
    (input_id : String) (choices : List (String × String))
    (default_choice : Option String) : Option Action :=
  if condition then
    (self.generate_action_payload reverse_action).map
      (fun data => create_action_block_submit reverse_action_title data)
  else
    (self.generate_action_payload action).map
      (fun data => create_action_block_show_card action_title
        (build_input_choice_card action_title data input_id choices default_choice))

/-- `MSTeamsIssueMessageBuilder.get_ignore_action`. -/
def MSTeamsIssueMessageBuilder.get_ignore_action
    (self : MSTeamsIssueMessageBuilder) (status : GroupStatus) : Option Action :=
  self.create_issue_action_block (decide (GroupStatus.IGNORED = status))
    ACTION_TYPE.IGNORE IssueConstants.IGNORE
    ACTION_TYPE.UNRESOLVE IssueConstants.STOP_IGNORING
    IssueConstants.IGNORE_INPUT_ID IssueConstants.IGNORE_INPUT_CHOICES none

/-- `MSTeamsIssueMessageBuilder.get_resolve_action`. -/
def MSTeamsIssueMessageBuilder.get_resolve_action
    (self : MSTeamsIssueMessageBuilder) (status : GroupStatus) : Option Action :=
  self.create_issue_action_block (decide (GroupStatus.RESOLVED = status))
    ACTION_TYPE.RESOLVE IssueConstants.RESOLVE
    ACTION_TYPE.UNRESOLVE IssueConstants.UNRESOLVE
    IssueConstants.RESOLVE_INPUT_ID IssueConstants.RESOLVE_INPUT_CHOICES none

/-- `MSTeamsIssueMessageBuilder.get_assign_action`: the condition is the
truthiness of `self.group.get_assignee()`. -/
def MSTeamsIssueMessageBuilder.get_assign_action
    (self : MSTeamsIssueMessageBuilder) : Option Action :=
  self.create_issue_action_block (self.group.get_assignee.isSome)
    ACTION_TYPE.ASSIGN IssueConstants.ASSIGN
    ACTION_TYPE.UNASSIGN IssueConstants.UNASSIGN
    IssueConstants.ASSIGN_INPUT_ID self.get_teams_choices
    (some IssueConstants.ME)

end MSTeams

namespace MSTeams

/- Concrete inputs for witnesses. -/

def sampleTeam : Team :=
  { slug := "alpha", optionText := "#alpha", optionValue := "team:1" }

def sampleGroup : MGroup := { id := 7, assignee := none, teams := [sampleTeam] }

def sampleAssignee : Assignee := { name := "jane" }

def assignedGroup : MGroup :=
  { id := 9, assignee := some sampleAssignee, teams := [sampleTeam] }

def sampleBuilder : MSTeamsIssueMessageBuilder :=
  { group := sampleGroup,
    event := { event_id := "abc123", group := some sampleGroup },
    rules := [{ id := 3 }], integration := { id := 11 } }

def assignedBuilder : MSTeamsIssueMessageBuilder :=
  { group := assignedGroup,
    event := { event_id := "def456", group := some assignedGroup },
    rules := [{ id := 4 }], integration := { id := 11 } }

/-- Claim C6: with the builder's event resolving to a group, if the status is
IGNORED (`condition` true) `get_ignore_action` returns the SUBMIT action
titled with the stop-ignoring label and carrying the reverse (UNRESOLVE)
payload; for any other status it returns the SHOW_CARD action titled with the
ignore label whose embedded card carries the ignore payload and the ignore
input choices. -/
theorem C6_ignore_action (b : MSTeamsIssueMessageBuilder) (status : GroupStatus)
    (g : MGroup) (h : b.event.group = some g) :
    (status = GroupStatus.IGNORED →
      b.get_ignore_action status =
        some (create_action_block_submit IssueConstants.STOP_IGNORING
          (b.payloadFor ACTION_TYPE.UNRESOLVE g))) ∧
    (status ≠ GroupStatus.IGNORED →
      b.get_ignore_action status =
        some (create_action_block_show_card IssueConstants.IGNORE
          (build_input_choice_card IssueConstants.IGNORE
            (b.payloadFor ACTION_TYPE.IGNORE g)
            IssueConstants.IGNORE_INPUT_ID IssueConstants.IGNORE_INPUT_CHOICES
            none))) := by
  constructor
  · intro hs
    subst hs
    simp [MSTeamsIssueMessageBuilder.get_ignore_action,
      MSTeamsIssueMessageBuilder.create_issue_action_block,
      MSTeamsIssueMessageBuilder.generate_action_payload, h]
  · intro hs
    have hd : decide (GroupStatus.IGNORED = status) = false :=
      decide_eq_false (fun hh => hs hh.symm)
    simp [MSTeamsIssueMessageBuilder.get_ignore_action,
      MSTeamsIssueMessageBuilder.create_issue_action_block,
      MSTeamsIssueMessageBuilder.generate_action_payload, h, hd]

/-- Claim C6 witness: on a concrete builder, the IGNORED status yields the
stop-ignoring SUBMIT action. -/
theorem C6_ignore_action_witness :
    sampleBuilder.get_ignore_action GroupStatus.IGNORED =
      some (create_action_block_submit IssueConstants.STOP_IGNORING
        (sampleBuilder.payloadFor ACTION_TYPE.UNRESOLVE sampleGroup)) :=
  (C6_ignore_action sampleBuilder GroupStatus.IGNORED sampleGroup rfl).1 rfl

/-- Claim C7: with the builder's event resolving to a group, when the current
state already equals the target state the offered action is the reverse one:
`get_resolve_action` on RESOLVED returns the unresolve SUBMIT action and
otherwise the resolve SHOW_CARD action; `get_assign_action` with an assignee
present returns the unassign SUBMIT action and otherwise the assign SHOW_CARD
action whose card's choices start with "Me" (the team choices) and default to
the ME constant. -/
theorem C7_toggle_actions (b : MSTeamsIssueMessageBuilder) (status : GroupStatus)
    (g : MGroup) (h : b.event.group = some g) :
    (status = GroupStatus.RESOLVED →
      b.get_resolve_action status =
        some (create_action_block_submit IssueConstants.UNRESOLVE
          (b.payloadFor ACTION_TYPE.UNRESOLVE g))) ∧
    (status ≠ GroupStatus.RESOLVED →
      b.get_resolve_action status =
        some (create_action_block_show_card IssueConstants.RESOLVE
          (build_input_choice_card IssueConstants.RESOLVE
            (b.payloadFor ACTION_TYPE.RESOLVE g)
            IssueConstants.RESOLVE_INPUT_ID IssueConstants.RESOLVE_INPUT_CHOICES
            none))) ∧
    (b.group.get_assignee.isSome = true →
      b.get_assign_action =
        some (create_action_block_submit IssueConstants.UNASSIGN
          (b.payloadFor ACTION_TYPE.UNASSIGN g))) ∧
    (b.group.get_assignee = none →
      b.get_assign_action =
        some (create_action_block_show_card IssueConstants.ASSIGN
          (build_input_choice_card IssueConstants.ASSIGN
            (b.payloadFor ACTION_TYPE.ASSIGN g)
            IssueConstants.ASSIGN_INPUT_ID
            (("Me", IssueConstants.ME) ::
              format_actor_options (order_by_slug b.group.teams))
            (some IssueConstants.ME)))) := by
  refine ⟨?_, ?_, ?_, ?_⟩
  · intro hs
    subst hs
    simp [MSTeamsIssueMessageBuilder.get_resolve_action,
      MSTeamsIssueMessageBuilder.create_issue_action_block,
      MSTeamsIssueMessageBuilder.generate_action_payload, h]
  · intro hs
    have hd : decide (GroupStatus.RESOLVED = status) = false :=
      decide_eq_false (fun hh => hs hh.symm)
    simp [MSTeamsIssueMessageBuilder.get_resolve_action,
      MSTeamsIssueMessageBuilder.create_issue_action_block,
      MSTeamsIssueMessageBuilder.generate_action_payload, h, hd]
  · intro ha
    simp [MSTeamsIssueMessageBuilder.get_assign_action,
      MSTeamsIssueMessageBuilder.create_issue_action_block,
      MSTeamsIssueMessageBuilder.generate_action_payload, h, ha]
  · intro ha
    simp [MSTeamsIssueMessageBuilder.get_assign_action,
      MSTeamsIssueMessageBuilder.create_issue_action_block,
      MSTeamsIssueMessageBuilder.generate_action_payload,
      MSTeamsIssueMessageBuilder.get_teams_choices, h, ha]

/-- Claim C7 witness: on a concrete builder whose group has an assignee,
`get_assign_action` yields the unassign SUBMIT action. -/
theorem C7_toggle_actions_witness :
    assignedBuilder.get_assign_action =
      some (create_action_block_submit IssueConstants.UNASSIGN
        (assignedBuilder.payloadFor ACTION_TYPE.UNASSIGN assignedGroup)) :=
  (C7_toggle_actions assignedBuilder GroupStatus.UNRESOLVED assignedGroup
    rfl).2.2.1 rfl

/-- The payload of any issue action block is produced iff `event.group` is
set: `create_issue_action_block` succeeds exactly when
`generate_action_payload` does, in both branches. -/
theorem create_issue_action_block_isSome (b : MSTeamsIssueMessageBuilder)
    (condition : Bool) (action : ACTION_TYPE) (action_title : String)
    (reverse_action : ACTION_TYPE) (reverse_action_title : String)
    (input_id : String) (choices : List (String × String))
    (default_choice : Option String) :
    (b.create_issue_action_block condition action action_title reverse_action
        reverse_action_title input_id choices default_choice).isSome =
      b.event.group.isSome := by
  unfold MSTeamsIssueMessageBuilder.create_issue_action_block
    MSTeamsIssueMessageBuilder.generate_action_payload
  cases b.event.group <;> cases condition <;> simp

/-- Claim C10: every issue action block construction requires `event.group`
to be set — `generate_action_payload` reads `event.group.id` unconditionally,
so each of the three action builders (in both branches) produces an action
exactly when `event.group` is non-None, and fails (no payload) when it is
unset. -/
theorem C10_actions_require_group (b : MSTeamsIssueMessageBuilder)
    (a : ACTION_TYPE) (status : GroupStatus) :
    ((b.generate_action_payload a).isSome = b.event.group.isSome) ∧
    ((b.get_ignore_action status).isSome = b.event.group.isSome) ∧
    ((b.get_resolve_action status).isSome = b.event.group.isSome) ∧
    (b.get_assign_action.isSome = b.event.group.isSome) := by
  refine ⟨?_, ?_, ?_, ?_⟩
  · unfold MSTeamsIssueMessageBuilder.generate_action_payload
    cases b.event.group <;> simp
  · exact create_issue_action_block_isSome b _ _ _ _ _ _ _ _
  · exact create_issue_action_block_isSome b _ _ _ _ _ _ _ _
  · exact create_issue_action_block_isSome b _ _ _ _ _ _ _ _

end MSTeams

namespace Hotspots

/-- One node of the hard-coded hotspot tree (`id`, optional `errorCount`,
`depth`, `index`). -/
structure HotspotEntry where
  id : String
  errorCount : Option Nat
  depth : Nat
  index : Nat
deriving DecidableEq

/-- A GET request, carrying arbitrary query parameters (the endpoint reads
none of them). -/
structure Request where
  params : List (String × String)
deriving DecidableEq

/-- The organization path argument (the endpoint reads no field of it). -/
structure Organization where
  id : Nat
  slug : String
deriving DecidableEq

structure Response where
  data : List HotspotEntry
deriving DecidableEq

/-- `OrganizationIssuesHotspotsEndpoint.get` from
`src/sentry/api/endpoints/organization_issues_hotspots.py`, lines 18-230:
returns the hard-coded hotspot-tree list, ignoring the request and the
organization. -/
def OrganizationIssuesHotspotsEndpoint.get (request : Request)
    (organization : Organization) : Response :=
  { data := [
    { id := "<root>", errorCount := none, depth := 0, index := 0 },
    { id := "<root>/billiard", errorCount := none, depth := 1, index := 1 },
    { id := "<root>/billiard/pool.py", errorCount := some 3, depth := 2, index := 2 },
    { id := "<root>/getsentry", errorCount := none, depth := 1, index := 3 },
    { id := "<root>/getsentry/utils", errorCount := none, depth := 2, index := 4 },
    { id := "<root>/getsentry/utils/flagr.py", errorCount := some 10, depth := 3, index := 5 },
    { id := "<root>/sentry", errorCount := none, depth := 1, index := 6 },
    { id := "<root>/sentry/api", errorCount := none, depth := 2, index := 7 },
    { id := "<root>/sentry/api/client.py", errorCount := some 13, depth := 3, index := 8 },
    { id := "<root>/sentry/api/endpoints", errorCount := none, depth := 3, index := 10 },
    { id := "<root>/sentry/api/endpoints/release_deploys.py", errorCount := some 123, depth := 4, index := 11 },
    { id := "<root>/sentry/api/fields", errorCount := none, depth := 3, index := 12 },
    { id := "<root>/sentry/api/fields/avatar.py", errorCount := some 123, depth := 3, index := 13 },
    { id := "<root>/sentry/db", errorCount := none, depth := 1, index := 14 },
    { id := "<root>/sentry/db/models", errorCount := none, depth := 2, index := 15 },
    { id := "<root>/sentry/db/models/fields", errorCount := none, depth := 3, index := 16 },
    { id := "<root>/sentry/db/models/fields/bounded.py", errorCount := some 123, depth := 4, index := 17 },
    { id := "<root>/sentry/identity", errorCount := none, depth := 2, index := 17 },
    { id := "<root>/sentry/identity/oauth2.py", errorCount := some 123, depth := 2, index := 18 },
    { id := "<root>/sentry/interfaces", errorCount := none, depth := 2, index := 19 },
    { id := "<root>/sentry/interfaces/contexts.py", errorCount := some 123, depth := 2, index := 20 },
    { id := "<root>/sentry/models", errorCount := none, depth := 2, index := 21 },
    { id := "<root>/sentry/models/organizationmember.py", errorCount := some 123, depth := 2, index := 22 },
    { id := "<root>/sentry/models/releasefile.py", errorCount := some 123, depth := 2, index := 23 },
    { id := "<root>/sentry/net", errorCount := none, depth := 2, index := 24 },
    { id := "<root>/sentry/net/socket.py", errorCount := some 123, depth := 2, index := 25 },
    { id := "<root>/sentry/receivers", errorCount := none, depth := 2, index := 26 },
    { id := "<root>/sentry/receivers/releases.py", errorCount := some 123, depth := 2, index := 27 },
    { id := "<root>/sentry/release_health", errorCount := none, depth := 2, index := 28 },
    { id := "<root>/sentry/release_health/tasks.py", errorCount := some 123, depth := 2, index := 29 },
    { id := "<root>/sentry/shared_integrations", errorCount := none, depth := 2, index := 30 },
    { id := "<root>/sentry/shared_integrations/client", errorCount := none, depth := 3, index := 31 },
    { id := "<root>/sentry/shared_integrations/client/base.py", errorCount := some 123, depth := 3, index := 32 },
    { id := "<root>/sentry/utils", errorCount := none, depth := 2, index := 33 },
    { id := "<root>/sentry/utils/json.py", errorCount := some 123, depth := 2, index := 34 },
    { id := "<root>/sentry/utils/locking", errorCount := none, depth := 3, index := 35 },
    { id := "<root>/sentry/utils/locking/lock.py", errorCount := some 123, depth := 3, index := 36 },
    { id := "<root>/sentry/utils/monitors.py", errorCount := some 123, depth := 2, index := 38 }] }

/-- Claim C8: any two GET requests receive the identical hard-coded
hotspot-tree response — the result of
`OrganizationIssuesHotspotsEndpoint.get` is independent of the request and
the organization argument. -/
theorem C8_hotspots_deterministic (r r' : Request) (o o' : Organization) :
    OrganizationIssuesHotspotsEndpoint.get r o =
      OrganizationIssuesHotspotsEndpoint.get r' o' := by
  rfl

end Hotspots

namespace GithubParser

/-- The view class resolved for the request: the GitHub webhook endpoint or
some other view. -/
inductive ViewClass where
  | GitHubIntegrationsWebhookEndpoint
  | OtherView (name : String)
deriving DecidableEq

/-- The resolved view function (`self.match.func`), carrying its
`view_class`. -/
structure ViewFunc where
  view_class : ViewClass
deriving DecidableEq

/-- The URL resolver match (`self.match` on `BaseRequestParser`). -/
structure ResolverMatch where
  func : ViewFunc
deriving DecidableEq

structure Integration where
  id : Nat
deriving DecidableEq

/-- The parser state used by `get_integration`: the resolver match (named
`match` in the source). -/
structure GithubRequestParser where
  resolver_match : ResolverMatch
deriving DecidableEq

/-- `GithubRequestParser.webhook_endpoint_class`. -/
def webhook_endpoint_class : ViewClass :=
  ViewClass.GitHubIntegrationsWebhookEndpoint

/-- `GithubRequestParser.get_integration` from
`src/sentry/middleware/integrations/parsers/github.py`: the branch taken
when the view class matches the webhook endpoint is `pass`, so both paths
fall through to the implicit `return None`. -/
def GithubRequestParser.get_integration (self : GithubRequestParser) :
    Option Integration :=
  let view_class := self.resolver_match.func.view_class
  if view_class = webhook_endpoint_class then
    none
  else
    none

/-- Claim C9: `get_integration` returns None for every request — including
when the matched view class equals `GitHubIntegrationsWebhookEndpoint`, since
that branch is a no-op; the parser never resolves an `Integration`. -/
theorem C9_get_integration_none (p : GithubRequestParser) :
    p.get_integration = none := by
  unfold GithubRequestParser.get_integration
  simp

end GithubParser
